import Mathlib

/-! Shallow embedding of the scenario validation / execution engine of
`src/main.py` (TaaS English-execution backend).

Pure data is modelled directly.  The browser (Playwright) is an external
capability modelled as an oracle (`Env` for the validation pass, `ExecEnv` for
the execution pass) whose answers may depend on the number of browser calls
made so far; since the embedded program is deterministic given the oracle,
this represents every deterministic browser behaviour.  Every browser
interaction the engine performs is additionally recorded in an explicit action
trace (`BAct`), so that statements of the form "the engine performed / did not
perform a real browser action" are observable.

Python `dict` access `d['k']` on a possibly missing key is modelled by
`Option` fields together with a raised `KeyError` where the source would
raise one; `d.get('k', default)` becomes `Option.getD`.  The in-place mutation
`step['selector'] = alt_selector` is modelled by explicitly threading the
current (possibly repaired) state of the caller's step list, which is what the
error branch of the pass returns, mirroring Python aliasing.  Wall-clock
durations, timestamps, log printing and file-system paths are not modelled.
-/

namespace Taas

/-- Outcome status of one step in one pass (the `status` values recorded in
`execution_metrics["stepDetails"]`). -/
inductive Status where
  | passed
  | failed
  | warning
deriving Repr, DecidableEq

/-- One entry of `execution_metrics["stepDetails"]`: the step description, its
status and the optional `reason` string (durations / timestamps omitted). -/
structure StepDetail where
  step : String
  status : Status
  reason : Option String
deriving Repr, DecidableEq

/-- The `execution_metrics` accumulator of `validate_with_mcp`. -/
structure Metrics where
  totalSteps : Nat
  passedSteps : Nat
  failedSteps : Nat
  warningSteps : Nat
  stepDetails : List StepDetail
deriving Repr, DecidableEq

/-- Initial `execution_metrics` value (all counters zero, no details). -/
def initMetrics : Metrics :=
  { totalSteps := 0, passedSteps := 0, failedSteps := 0, warningSteps := 0, stepDetails := [] }

/-- One scenario step as the Python dict it is: every field may be absent. -/
structure StepDict where
  action : Option String
  url : Option String
  selector : Option String
  value : Option String
  condition : Option String
deriving Repr, DecidableEq

/-- One scenario as the Python dict it is: every field may be absent. -/
structure ScenarioDict where
  name : Option String
  description : Option String
  steps : Option (List StepDict)
deriving Repr, DecidableEq

/-- The configuration surface consumed by the engine: the
`ENABLE_MCP_VALIDATION` toggle and the `SKIP_MCP_DOMAINS` entries. -/
structure Config where
  enable_mcp_validation : Bool
  skip_mcp_domains : List String
deriving Repr, DecidableEq

/-- Decidable equality of `Except` values, used to evaluate concrete runs of
the embedded passes inside proofs. -/
instance {ε α : Type} [DecidableEq ε] [DecidableEq α] : DecidableEq (Except ε α) := fun x y =>
  match x, y with
  | Except.ok a, Except.ok b =>
    if h : a = b then isTrue (by rw [h]) else isFalse (fun he => h (Except.ok.inj he))
  | Except.error a, Except.error b =>
    if h : a = b then isTrue (by rw [h]) else isFalse (fun he => h (Except.error.inj he))
  | Except.ok _, Except.error _ => isFalse (fun he => Except.noConfusion he)
  | Except.error _, Except.ok _ => isFalse (fun he => Except.noConfusion he)

/-- Message of a Python `KeyError` raised by `d['k']` on a missing key (the
exact Python rendering of the message is abstracted to the key name). -/
def keyErr (k : String) : String := "KeyError: " ++ k

/-- Python truthiness of the `current_url` variable (`if not current_url`):
`None` and the empty string are both falsy. -/
def pyFalsy : Option String → Bool
  | none => true
  | some s => s == ""

/-- ASCII lower-casing of one character, as Python `str.lower` acts on the
ASCII range (the URLs and domains involved are ASCII). -/
def pyCharLower (c : Char) : Char :=
  if 65 <= c.toNat ∧ c.toNat <= 90 then Char.ofNat (c.toNat + 32) else c

/-- Python `s.lower()` (ASCII). -/
def pyLower (s : String) : String := String.mk (s.toList.map pyCharLower)

/-- Python substring test `needle in hay` on strings. -/
def strContainsSub (hay needle : String) : Bool :=
  (List.range (hay.toList.length + 1)).any
    (fun i => needle.toList.isPrefixOf (hay.toList.drop i))

/-- The `should_skip_mcp_validation` check: an empty URL never skips;
otherwise skip when some configured (non-empty) domain entry is a substring of
the lowercased target URL.  Note the source lowercases only the URL, not the
configured domain entry. -/
def should_skip_mcp_validation (cfg : Config) (target_url : String) : Bool :=
  if target_url = "" then false
  else cfg.skip_mcp_domains.any (fun d => !(d == "") && strContainsSub (pyLower target_url) d)

/-- One recorded browser interaction (navigation, first-match visibility
query, click, fill, visibility wait, screenshot, trace start / stop). -/
inductive BAct where
  | goto (url : String)
  | is_visible (sel : String)
  | click (sel : String)
  | fill (sel : String) (v : String)
  | wait_visible (sel : String)
  | screenshot
  | trace_start
  | trace_stop
deriving Repr, DecidableEq

/-- Browser oracle for the validation pass.  Each operation receives the index
of the call (the length of the action trace so far) and its arguments, and
either succeeds or raises with a message; `is_visible` answers whether the
first match of the selector is currently visible. -/
structure Env where
  launch : Except String Unit
  goto : Nat → String → Except String Unit
  is_visible : Nat → String → Except String Bool
  click : Nat → String → Except String Unit
  fill : Nat → String → String → Except String Unit
  wait_visible : Nat → String → Except String Unit

/-- Token used to build the alternative selector templates: the original
selector with bracket, quote and equals characters stripped (the chained
`.replace` calls in `validate_with_mcp`). -/
def normalizeToken (s : String) : String :=
  String.mk (s.toList.filter (fun c =>
    !(c == Char.ofNat 91 || c == Char.ofNat 93 || c == Char.ofNat 39 || c == Char.ofNat 61)))

/-- The three alternative selector templates probed, in fixed order, when the
first match of the original selector is not visible. -/
def alternatives (sel : String) : List String :=
  ["[data-testid=\"" ++ normalizeToken sel ++ "\"]",
   "[aria-label*=\"" ++ normalizeToken sel ++ "\"]",
   "[placeholder*=\"" ++ normalizeToken sel ++ "\"]"]

/-- Result of the selector-resolution phase for a `click` / `fill` step. -/
inductive ResolveOutcome where
  | found (sel : String)
  | notFound (orig : String)
  | err (msg : String)
deriving Repr, DecidableEq

/-- The alternative-probing loop: each probe is one visibility query whose
failure (not visible, or a raised error) is swallowed, moving on to the next
template; the first visible alternative wins. -/
def probeAlternatives (env : Env) : List BAct → List String → List BAct × Option String
  | tr, [] => (tr, none)
  | tr, alt :: rest =>
    match env.is_visible tr.length alt with
    | Except.ok true => (tr ++ [BAct.is_visible alt], some alt)
    | _ => probeAlternatives env (tr ++ [BAct.is_visible alt]) rest

/-- The Selector Resolver (`validate_with_mcp`, selector pre-flight check):
query visibility of the first match of `sel`; if visible keep it; if the query
raises report a selector error; otherwise probe the three alternative
templates and either adopt the first visible one or report not-found. -/
def resolveSelector (env : Env) (tr : List BAct) (sel : String) : List BAct × ResolveOutcome :=
  match env.is_visible tr.length sel with
  | Except.error e => (tr ++ [BAct.is_visible sel], ResolveOutcome.err e)
  | Except.ok true => (tr ++ [BAct.is_visible sel], ResolveOutcome.found sel)
  | Except.ok false =>
    match probeAlternatives env (tr ++ [BAct.is_visible sel]) (alternatives sel) with
    | (tr1, some alt) => (tr1, ResolveOutcome.found alt)
    | (tr1, none) => (tr1, ResolveOutcome.notFound sel)

/-- One step of the validation pass (the body of the `for step in
scenario['steps']` loop of `validate_with_mcp`).  Returns the new action
trace, the new `current_url`, the step's (possibly selector-repaired) value
and the recorded step detail; the `Except.error` case is a pass-level
exception (a step dict with no `action` key makes the per-step exception
handler itself raise `KeyError` when building the failure detail). -/
def validateStep (env : Env) (tr : List BAct) (cu : Option String) (step : StepDict) :
    Except String (List BAct × Option String × StepDict × StepDetail) :=
  match step.action with
  | none => Except.error (keyErr "action")
  | some a =>
    if a = "goto" then
      match step.url with
      | none => Except.ok (tr, cu, step, ⟨a, Status.failed, some (keyErr "url")⟩)
      | some u =>
        match env.goto tr.length u with
        | Except.ok _ =>
          Except.ok (tr ++ [BAct.goto u], some u, step,
            ⟨"Navigate to " ++ u, Status.passed, none⟩)
        | Except.error e =>
          Except.ok (tr ++ [BAct.goto u], cu, step, ⟨a, Status.failed, some e⟩)
    else if pyFalsy cu then
      Except.ok (tr, cu, step, ⟨a, Status.warning, some "No page loaded"⟩)
    else if a = "click" ∨ a = "fill" then
      match step.selector with
      | none =>
        Except.ok (tr, cu, step,
          ⟨a, Status.failed, some ("Selector error: " ++ keyErr "selector")⟩)
      | some sel =>
        match resolveSelector env tr sel with
        | (tr1, ResolveOutcome.err e) =>
          Except.ok (tr1, cu, step, ⟨a, Status.failed, some ("Selector error: " ++ e)⟩)
        | (tr1, ResolveOutcome.notFound o) =>
          Except.ok (tr1, cu, step, ⟨a, Status.failed, some ("Selector not found: " ++ o)⟩)
        | (tr1, ResolveOutcome.found s2) =>
          if a = "click" then
            match env.click tr1.length s2 with
            | Except.ok _ =>
              Except.ok (tr1 ++ [BAct.click s2], cu, { step with selector := some s2 },
                ⟨a, Status.passed, none⟩)
            | Except.error e =>
              Except.ok (tr1 ++ [BAct.click s2], cu, { step with selector := some s2 },
                ⟨a, Status.failed, some e⟩)
          else
            match env.fill tr1.length s2 (step.value.getD "") with
            | Except.ok _ =>
              Except.ok (tr1 ++ [BAct.fill s2 (step.value.getD "")], cu,
                { step with selector := some s2 }, ⟨a, Status.passed, none⟩)
            | Except.error e =>
              Except.ok (tr1 ++ [BAct.fill s2 (step.value.getD "")], cu,
                { step with selector := some s2 }, ⟨a, Status.failed, some e⟩)
    else if a = "expect" then
      if step.condition = some "toBeVisible" then
        match step.selector with
        | none => Except.ok (tr, cu, step, ⟨a, Status.failed, some (keyErr "selector")⟩)
        | some sel =>
          match env.wait_visible tr.length sel with
          | Except.ok _ =>
            Except.ok (tr ++ [BAct.wait_visible sel], cu, step, ⟨a, Status.passed, none⟩)
          | Except.error e =>
            Except.ok (tr ++ [BAct.wait_visible sel], cu, step, ⟨a, Status.failed, some e⟩)
      else Except.ok (tr, cu, step, ⟨a, Status.passed, none⟩)
    else Except.ok (tr, cu, step, ⟨a, Status.passed, none⟩)

/-- Record one step detail in the metrics: bump exactly the counter matching
its status and append it to `stepDetails` (`totalSteps` is bumped separately,
before the step body runs, as in the source). -/
def addDetail (m : Metrics) (d : StepDetail) : Metrics :=
  match d.status with
  | Status.passed =>
    { m with passedSteps := m.passedSteps + 1, stepDetails := m.stepDetails ++ [d] }
  | Status.failed =>
    { m with failedSteps := m.failedSteps + 1, stepDetails := m.stepDetails ++ [d] }
  | Status.warning =>
    { m with warningSteps := m.warningSteps + 1, stepDetails := m.stepDetails ++ [d] }

/-- The per-scenario step loop of `validate_with_mcp`: threads the action
trace, `current_url` and the metrics; `macc` accumulates the current (possibly
selector-repaired) state of the scenario's step objects, `vacc` the
`validated_steps` list (copies of steps whose outcome was `passed`).  A
pass-level exception returns the exception message, the current state of all
step objects (repaired prefix, unrepaired remainder - Python aliasing) and the
trace so far. -/
def runSteps (env : Env) :
    List BAct → Option String → Metrics → List StepDict → List StepDict → List StepDict →
    Except (String × List StepDict × List BAct)
      (List BAct × Option String × Metrics × List StepDict × List StepDict)
  | tr, cu, m, macc, vacc, [] => Except.ok (tr, cu, m, macc, vacc)
  | tr, cu, m, macc, vacc, s :: rest =>
    match validateStep env tr cu s with
    | Except.error e => Except.error (e, macc ++ s :: rest, tr)
    | Except.ok (tr1, cu1, s1, d) =>
      runSteps env tr1 cu1 (addDetail { m with totalSteps := m.totalSteps + 1 } d)
        (macc ++ [s1]) (if d.status = Status.passed then vacc ++ [s1] else vacc) rest

/-- The per-scenario sequence of (repaired step, outcome) pairs produced by a
completed step loop, used to characterise what `runSteps` accumulates. -/
def stepOutcomes (env : Env) : List BAct → Option String → List StepDict →
    List (StepDict × StepDetail)
  | _, _, [] => []
  | tr, cu, s :: rest =>
    match validateStep env tr cu s with
    | Except.error _ => []
    | Except.ok (tr1, cu1, s1, d) => (s1, d) :: stepOutcomes env tr1 cu1 rest

/-- The scenario loop of `validate_with_mcp`: per scenario, its `name` is read
(for logging) and its `steps` iterated - either access on a malformed scenario
dict raises a pass-level `KeyError`.  On success it returns the trace, the
accumulated metrics and the list of validated scenarios (each a copy of the
original with `steps` replaced by its `validated_steps`); on a pass-level
error it returns the message, the current - possibly selector-repaired -
state of the caller's scenario list and the trace. -/
def runScenarios (env : Env) :
    List BAct → Metrics → List ScenarioDict →
    Except (String × List ScenarioDict × List BAct) (List BAct × Metrics × List ScenarioDict)
  | tr, m, [] => Except.ok (tr, m, [])
  | tr, m, sc :: rest =>
    match sc.name with
    | none => Except.error (keyErr "name", sc :: rest, tr)
    | some _ =>
      match sc.steps with
      | none => Except.error (keyErr "steps", sc :: rest, tr)
      | some steps =>
        match runSteps env tr none m [] [] steps with
        | Except.error (e, msteps, trE) =>
          Except.error (e, { sc with steps := some msteps } :: rest, trE)
        | Except.ok (tr1, _, m1, msteps, vsteps) =>
          match runScenarios env tr1 m1 rest with
          | Except.error (e, sufs, trE) =>
            Except.error (e, { sc with steps := some msteps } :: sufs, trE)
          | Except.ok (tr2, m2, vrest) =>
            Except.ok (tr2, m2, { sc with steps := some vsteps } :: vrest)

/-- The caller-visible result of `validate_with_mcp` (the keys of the returned
dict that the embedding models; report-decoration strings are omitted). -/
structure MCPResult where
  validated : Bool
  reason : Option String
  scenarios : List ScenarioDict
  metrics : Option Metrics
  totalScenarios : Option Nat
  validatedScenarios : Option Nat
deriving Repr, DecidableEq

/-- The `validate_with_mcp` entry point: bypass when validation is disabled or
the target URL hits the sensitive-domain skip-list; otherwise launch the
browser and run the scenario loop, converting any pass-level exception into a
`validated = false` result carrying the exception message and the current
state of the scenario list.  The second component is the trace of browser
interactions performed. -/
def validate_with_mcp (cfg : Config) (env : Env) (scenarios : List ScenarioDict)
    (target_url : String) : MCPResult × List BAct :=
  if cfg.enable_mcp_validation = false then
    ({ validated := false, reason := some "MCP validation disabled", scenarios := scenarios,
       metrics := none, totalScenarios := none, validatedScenarios := none }, [])
  else if target_url ≠ "" ∧ should_skip_mcp_validation cfg target_url = true then
    ({ validated := false, reason := some "Skipped due to sensitive domain",
       scenarios := scenarios, metrics := none, totalScenarios := none,
       validatedScenarios := none }, [])
  else
    match env.launch with
    | Except.error e =>
      ({ validated := false, reason := some e, scenarios := scenarios,
         metrics := none, totalScenarios := none, validatedScenarios := none }, [])
    | Except.ok _ =>
      match runScenarios env [] initMetrics scenarios with
      | Except.error (e, mscens, trE) =>
        ({ validated := false, reason := some e, scenarios := mscens,
           metrics := none, totalScenarios := none, validatedScenarios := none }, trE)
      | Except.ok (tr, m, vscens) =>
        ({ validated := true, reason := none, scenarios := vscens,
           metrics := some m, totalScenarios := some scenarios.length,
           validatedScenarios := some vscens.length }, tr)

/-- A single-quote character, used to reproduce the transcript lines built by
the execution pass. -/
def sq : String := String.mk [Char.ofNat 39]

/-- Browser / filesystem oracle for the execution pass
(`execute_scenario_with_playwright`): besides the per-call-indexed step
operations, the pass performs two screenshots, trace recording start / stop, a
page-state read (URL always available, title may raise) and two report-file
writes, any of which may raise a pass-level exception. -/
structure ExecEnv where
  launch : Except String Unit
  screenshot1 : Except String Unit
  tracing_start : Except String Unit
  goto : Nat → String → Except String Unit
  fill : Nat → String → String → Except String Unit
  click : Nat → String → Except String Unit
  wait_visible : Nat → String → Except String Unit
  tracing_stop : Except String Unit
  screenshot2 : Except String Unit
  page_url : String
  page_title : Except String String
  write_result_txt : Except String Unit
  write_report_json : Except String Unit

/-- One step of the execution pass (the body of the `for i, step in
enumerate(scenario['steps'])` loop): returns the new action trace, the
transcript text appended to `executed_code` by this step, and whether the
step succeeded (a raised error is caught per step, setting
`final_result = False` and continuing).  Transcript text appended before the
action is kept even when the action then raises, as in the source. -/
def execStep (env : ExecEnv) (tr : List BAct) (step : StepDict) : List BAct × String × Bool :=
  match step.action with
  | none => (tr, "", false)
  | some a =>
    if a = "goto" then
      match step.url with
      | none => (tr, "", false)
      | some u =>
        let c := "await page.goto(" ++ sq ++ u ++ sq ++ ");\n"
        match env.goto tr.length u with
        | Except.ok _ => (tr ++ [BAct.goto u], c, true)
        | Except.error _ => (tr ++ [BAct.goto u], c, false)
    else if a = "fill" then
      match step.selector with
      | none => (tr, "", false)
      | some sel =>
        let v := step.value.getD ""
        let c := "await page.locator(" ++ sq ++ sel ++ sq ++ ").fill(" ++ sq ++ v ++ sq ++ ");\n"
        match env.fill tr.length sel v with
        | Except.ok _ => (tr ++ [BAct.fill sel v], c, true)
        | Except.error _ => (tr ++ [BAct.fill sel v], c, false)
    else if a = "click" then
      match step.selector with
      | none => (tr, "", false)
      | some sel =>
        let c := "await page.locator(" ++ sq ++ sel ++ sq ++ ").click();\n"
        match env.click tr.length sel with
        | Except.ok _ => (tr ++ [BAct.click sel], c, true)
        | Except.error _ => (tr ++ [BAct.click sel], c, false)
    else if a = "expect" then
      if step.condition = some "toBeVisible" then
        match step.selector with
        | none => (tr, "", false)
        | some sel =>
          let c := "await page.locator(" ++ sq ++ sel ++ sq ++ ").wait_for(state=" ++ sq
            ++ "visible" ++ sq ++ ");\n"
          match env.wait_visible tr.length sel with
          | Except.ok _ => (tr ++ [BAct.wait_visible sel], c, true)
          | Except.error _ => (tr ++ [BAct.wait_visible sel], c, false)
      else (tr, "", true)
    else (tr, "", true)

/-- The step loop of the execution pass: threads the trace, the accumulated
`executed_code` transcript and the `final_result` flag over every step - a
failed step never aborts the iteration. -/
def execSteps (env : ExecEnv) :
    List BAct → String → Bool → List StepDict → List BAct × String × Bool
  | tr, code, fr, [] => (tr, code, fr)
  | tr, code, fr, s :: rest =>
    match execStep env tr s with
    | (tr1, c, ok) => execSteps env tr1 (code ++ c) (fr && ok) rest

/-- The per-step success flags of the execution pass, in step order, used to
characterise `final_result` and failure isolation. -/
def execFlags (env : ExecEnv) : List BAct → List StepDict → List Bool
  | _, [] => []
  | tr, s :: rest =>
    match execStep env tr s with
    | (tr1, _, ok) => ok :: execFlags env tr1 rest

/-- The page-state dict captured at the end of the execution pass: either the
final URL and title, or the captured read error. -/
inductive PageState where
  | ok (url : String) (title : String)
  | err (msg : String)
deriving Repr, DecidableEq

/-- The caller-visible result of `execute_scenario_with_playwright` (keys of
the returned dict that the embedding models): `success` and `error` from the
top level, `status` / `totalSteps` / `executedCode` from the nested execution
report, `final_result` as embedded in the formatted transcript, and the
captured page state. -/
structure ExecResult where
  success : Bool
  error : Option String
  status : Option String
  totalSteps : Option Nat
  executedCode : Option String
  final_result : Option Bool
  pageState : Option PageState
deriving Repr, DecidableEq

/-- The result returned by the `except` branch of
`execute_scenario_with_playwright`: `success = False` with the exception
message; no execution report, transcript or page state. -/
def execFail (e : String) : ExecResult :=
  { success := false, error := some e, status := none, totalSteps := none,
    executedCode := none, final_result := none, pageState := none }

/-- The `execute_scenario_with_playwright` entry point: read the scenario
name, launch an isolated browser, take the initial screenshot, start tracing,
run every step in `run` mode, stop tracing, take the final screenshot, read
the page state (a failed read is captured, not fatal), write the two report
files, and return `success = True` with status `completed` when every step
passed and `failed` otherwise.  Any pass-level exception yields the
`execFail` result instead.  The second component is the trace of
browser interactions performed. -/
def execute_scenario_with_playwright (env : ExecEnv) (sc : ScenarioDict) :
    ExecResult × List BAct :=
  match sc.name with
  | none => (execFail (keyErr "name"), [])
  | some _ =>
    match env.launch with
    | Except.error e => (execFail e, [])
    | Except.ok _ =>
      match env.screenshot1 with
      | Except.error e => (execFail e, [BAct.screenshot])
      | Except.ok _ =>
        match env.tracing_start with
        | Except.error e => (execFail e, [BAct.screenshot, BAct.trace_start])
        | Except.ok _ =>
          match sc.steps with
          | none => (execFail (keyErr "steps"), [BAct.screenshot, BAct.trace_start])
          | some steps =>
            match execSteps env [BAct.screenshot, BAct.trace_start] "" true steps with
            | (tr, code, fr) =>
              match env.tracing_stop with
              | Except.error e => (execFail e, tr ++ [BAct.trace_stop])
              | Except.ok _ =>
                match env.screenshot2 with
                | Except.error e => (execFail e, tr ++ [BAct.trace_stop, BAct.screenshot])
                | Except.ok _ =>
                  let ps : PageState :=
                    match env.page_title with
                    | Except.ok t => PageState.ok env.page_url t
                    | Except.error e => PageState.err e
                  match env.write_result_txt with
                  | Except.error e => (execFail e, tr ++ [BAct.trace_stop, BAct.screenshot])
                  | Except.ok _ =>
                    match env.write_report_json with
                    | Except.error e => (execFail e, tr ++ [BAct.trace_stop, BAct.screenshot])
                    | Except.ok _ =>
                      ({ success := true, error := none,
                         status := some (if fr then "completed" else "failed"),
                         totalSteps := some steps.length,
                         executedCode := some code,
                         final_result := some fr,
                         pageState := some ps },
                       tr ++ [BAct.trace_stop, BAct.screenshot])

/-! Concrete browser oracles and inputs used to instantiate the claim
theorems and to exhibit counterexamples.  Each claim uses its own copies. -/

/-- A goto step to `https://example.com`. -/
def gotoStep : StepDict :=
  { action := some "goto", url := some "https://example.com", selector := none,
    value := none, condition := none }

/-- A click step on selector `#btn`. -/
def clickStep : StepDict :=
  { action := some "click", url := none, selector := some "#btn", value := none,
    condition := none }

/-- A fill step on selector `#q` with value `x`. -/
def fillStep : StepDict :=
  { action := some "fill", url := none, selector := some "#q", value := some "x",
    condition := none }

/-- A malformed step dict with no `action` key. -/
def badStep : StepDict :=
  { action := none, url := none, selector := none, value := none, condition := none }

/-- An expect step with an unsupported condition. -/
def expectOtherStep : StepDict :=
  { action := some "expect", url := none, selector := some "body", value := none,
    condition := some "toHaveText" }

/-- Configuration with validation enabled and an empty skip-list. -/
def plainCfg : Config := { enable_mcp_validation := true, skip_mcp_domains := [] }

/-- Validation oracle for claim C1: launch and every operation succeed and
every selector's first match is visible. -/
def c1Env : Env :=
  { launch := Except.ok (), goto := fun _ _ => Except.ok (),
    is_visible := fun _ _ => Except.ok true,
    click := fun _ _ => Except.ok (), fill := fun _ _ _ => Except.ok (),
    wait_visible := fun _ _ => Except.ok () }

/-- Scenario used for claim C1: navigate, then click a visible selector. -/
def c1Scen : ScenarioDict :=
  { name := some "S", description := some "d", steps := some [gotoStep, clickStep] }

/-- Execution oracle for claim C2: every pass-level operation succeeds, but
clicking always raises. -/
def c2Env : ExecEnv :=
  { launch := Except.ok (), screenshot1 := Except.ok (), tracing_start := Except.ok (),
    goto := fun _ _ => Except.ok (), fill := fun _ _ _ => Except.ok (),
    click := fun _ _ => Except.error "Timeout 30000ms exceeded",
    wait_visible := fun _ _ => Except.ok (),
    tracing_stop := Except.ok (), screenshot2 := Except.ok (),
    page_url := "https://example.com", page_title := Except.ok "Example",
    write_result_txt := Except.ok (), write_report_json := Except.ok () }

/-- Scenario used for claim C2: navigate, then click (the click fails). -/
def c2Scen : ScenarioDict :=
  { name := some "S", description := some "d", steps := some [gotoStep, clickStep] }

/-- Validation oracle for claim C3's witness: everything succeeds. -/
def c3Env : Env :=
  { launch := Except.ok (), goto := fun _ _ => Except.ok (),
    is_visible := fun _ _ => Except.ok true,
    click := fun _ _ => Except.ok (), fill := fun _ _ _ => Except.ok (),
    wait_visible := fun _ _ => Except.ok () }

/-- Scenario list for claim C3's witness: one scenario with one goto step. -/
def c3Scens : List ScenarioDict :=
  [{ name := some "S", description := some "d", steps := some [gotoStep] }]

/-- The metrics produced by validating `c3Scens` under `c3Env`. -/
def c3M : Metrics :=
  { totalSteps := 1, passedSteps := 1, failedSteps := 0, warningSteps := 0,
    stepDetails := [⟨"Navigate to https://example.com", Status.passed, none⟩] }

/-- Validation oracle for claim C4: only the `data-testid` alternative derived
from selector `#q` is visible, so the fill step gets repaired in place before
the malformed third step raises a pass-level exception. -/
def c4Env : Env :=
  { launch := Except.ok (), goto := fun _ _ => Except.ok (),
    is_visible := fun _ sel => Except.ok (sel == "[data-testid=\"#q\"]"),
    click := fun _ _ => Except.ok (), fill := fun _ _ _ => Except.ok (),
    wait_visible := fun _ _ => Except.ok () }

/-- Scenario list for claim C4: goto, a repairable fill, then a step with no
`action` key (which raises mid-pass, after the repair). -/
def c4Scens : List ScenarioDict :=
  [{ name := some "S", description := some "d", steps := some [gotoStep, fillStep, badStep] }]

/-- Validation oracle for claim C5's witness: navigation always fails. -/
def c5Env : Env :=
  { launch := Except.ok (),
    goto := fun _ _ => Except.error "net::ERR_NAME_NOT_RESOLVED",
    is_visible := fun _ _ => Except.ok true,
    click := fun _ _ => Except.ok (), fill := fun _ _ _ => Except.ok (),
    wait_visible := fun _ _ => Except.ok () }

/-- Skip-list configuration with an upper-case domain entry (claim C6's
counterexample). -/
def c6CfgUpper : Config := { enable_mcp_validation := true, skip_mcp_domains := ["BANK"] }

/-- Skip-list configuration with the lower-case domain entry `bank` (claim
C6's witness). -/
def c6CfgLower : Config := { enable_mcp_validation := true, skip_mcp_domains := ["bank"] }

/-- Validation oracle for claim C7's witness: every selector is visible and
filling succeeds. -/
def c7Env : Env :=
  { launch := Except.ok (), goto := fun _ _ => Except.ok (),
    is_visible := fun _ _ => Except.ok true,
    click := fun _ _ => Except.ok (), fill := fun _ _ _ => Except.ok (),
    wait_visible := fun _ _ => Except.ok () }

/-- Validation oracle for claim C8's witness. -/
def c8EnvV : Env :=
  { launch := Except.ok (), goto := fun _ _ => Except.ok (),
    is_visible := fun _ _ => Except.ok true,
    click := fun _ _ => Except.ok (), fill := fun _ _ _ => Except.ok (),
    wait_visible := fun _ _ => Except.ok () }

/-- Execution oracle for claim C8's witness. -/
def c8EnvE : ExecEnv :=
  { launch := Except.ok (), screenshot1 := Except.ok (), tracing_start := Except.ok (),
    goto := fun _ _ => Except.ok (), fill := fun _ _ _ => Except.ok (),
    click := fun _ _ => Except.ok (), wait_visible := fun _ _ => Except.ok (),
    tracing_stop := Except.ok (), screenshot2 := Except.ok (),
    page_url := "https://example.com", page_title := Except.ok "Example",
    write_result_txt := Except.ok (), write_report_json := Except.ok () }

/-- Validation oracle for claim C9's witness: no selector and no alternative
is ever visible, so the click step fails while the goto passes. -/
def c9Env : Env :=
  { launch := Except.ok (), goto := fun _ _ => Except.ok (),
    is_visible := fun _ _ => Except.ok false,
    click := fun _ _ => Except.ok (), fill := fun _ _ _ => Except.ok (),
    wait_visible := fun _ _ => Except.ok () }

/-- Step list for claim C9's witness: a passing goto followed by a failing
click. -/
def c9Steps : List StepDict := [gotoStep, clickStep]

/-- Action trace of claim C9's witness run. -/
def c9Trace : List BAct :=
  [BAct.goto "https://example.com", BAct.is_visible "#btn",
   BAct.is_visible "[data-testid=\"#btn\"]", BAct.is_visible "[aria-label*=\"#btn\"]",
   BAct.is_visible "[placeholder*=\"#btn\"]"]

/-- Metrics of claim C9's witness run. -/
def c9M : Metrics :=
  { totalSteps := 2, passedSteps := 1, failedSteps := 1, warningSteps := 0,
    stepDetails := [⟨"Navigate to https://example.com", Status.passed, none⟩,
                    ⟨"click", Status.failed, some "Selector not found: #btn"⟩] }

/-- Validation oracle for claim C10's witness. -/
def c10Env : Env :=
  { launch := Except.ok (), goto := fun _ _ => Except.ok (),
    is_visible := fun _ _ => Except.ok true,
    click := fun _ _ => Except.ok (), fill := fun _ _ _ => Except.ok (),
    wait_visible := fun _ _ => Except.ok () }

/-- A step with an unrecognized action string (claim C10's witness). -/
def hoverStep : StepDict :=
  { action := some "hover", url := none, selector := some "#menu", value := none,
    condition := none }

/-- Two step dicts that agree on every field except possibly `selector` - the
only field the validation pass ever mutates in place. -/
def stepAgrees (a b : StepDict) : Prop :=
  a.action = b.action ∧ a.url = b.url ∧ a.value = b.value ∧ a.condition = b.condition

/-- Two scenario dicts that agree on `name` and `description` and whose step
lists agree pointwise except possibly in `selector` fields. -/
def scenarioAgrees (a b : ScenarioDict) : Prop :=
  a.name = b.name ∧ a.description = b.description ∧
  ((a.steps = none ∧ b.steps = none) ∨
   ∃ sa sb, a.steps = some sa ∧ b.steps = some sb ∧ List.Forall₂ stepAgrees sa sb)

/-! Helper lemmas. -/

/-- Recording a detail leaves `totalSteps` unchanged. -/
lemma addDetail_totalSteps (m : Metrics) (d : StepDetail) :
    (addDetail m d).totalSteps = m.totalSteps := by
  cases hd : d.status <;> simp [addDetail, hd]

/-- Recording a detail bumps exactly one of the three status counters. -/
lemma addDetail_sum (m : Metrics) (d : StepDetail) :
    (addDetail m d).passedSteps + (addDetail m d).failedSteps + (addDetail m d).warningSteps
      = m.passedSteps + m.failedSteps + m.warningSteps + 1 := by
  cases hd : d.status <;> simp [addDetail, hd] <;> omega

/-- Recording a detail appends exactly that detail to `stepDetails`. -/
lemma addDetail_stepDetails (m : Metrics) (d : StepDetail) :
    (addDetail m d).stepDetails = m.stepDetails ++ [d] := by
  cases hd : d.status <;> simp [addDetail, hd]

/-- A completed step loop visits every step of the scenario and records one
outcome per step: `totalSteps` grows by the number of steps, the three status
counters together grow by the same amount, and one detail is appended per
step. -/
lemma runSteps_ok_counts :
    ∀ (steps : List StepDict) (env : Env) (tr : List BAct) (cu : Option String)
      (m : Metrics) (macc vacc : List StepDict) (tr1 : List BAct) (cu1 : Option String)
      (m1 : Metrics) (ms vs : List StepDict),
      runSteps env tr cu m macc vacc steps = Except.ok (tr1, cu1, m1, ms, vs) →
      m1.totalSteps = m.totalSteps + steps.length ∧
      m1.passedSteps + m1.failedSteps + m1.warningSteps
        = m.passedSteps + m.failedSteps + m.warningSteps + steps.length ∧
      m1.stepDetails.length = m.stepDetails.length + steps.length := by
  intro steps
  induction steps with
  | nil =>
    intro env tr cu m macc vacc tr1 cu1 m1 ms vs h
    simp only [runSteps, Except.ok.injEq, Prod.mk.injEq] at h
    obtain ⟨-, -, h3, -, -⟩ := h
    subst h3
    simp
  | cons s rest ih =>
    intro env tr cu m macc vacc tr1 cu1 m1 ms vs h
    rw [runSteps] at h
    cases hv : validateStep env tr cu s with
    | error e => rw [hv] at h; simp at h
    | ok val =>
      obtain ⟨tr2, cu2, s2, d⟩ := val
      rw [hv] at h
      simp only [] at h
      have hrec := ih env tr2 cu2 (addDetail { m with totalSteps := m.totalSteps + 1 } d)
        (macc ++ [s2]) (if d.status = Status.passed then vacc ++ [s2] else vacc)
        tr1 cu1 m1 ms vs h
      have h1 := addDetail_totalSteps { m with totalSteps := m.totalSteps + 1 } d
      have h2 := addDetail_sum { m with totalSteps := m.totalSteps + 1 } d
      have h3 := addDetail_stepDetails { m with totalSteps := m.totalSteps + 1 } d
      obtain ⟨r1, r2, r3⟩ := hrec
      refine ⟨?_, ?_, ?_⟩
      · rw [r1, h1]; simp; omega
      · rw [r2, h2]; simp; omega
      · rw [r3, h3]; simp [List.length_append]; omega

/-- A completed scenario loop accumulates, over all scenarios, one visited
step and one recorded outcome per scenario step. -/
lemma runScenarios_ok_counts :
    ∀ (scens : List ScenarioDict) (env : Env) (tr : List BAct) (m : Metrics)
      (tr1 : List BAct) (m1 : Metrics) (vscens : List ScenarioDict),
      runScenarios env tr m scens = Except.ok (tr1, m1, vscens) →
      m1.totalSteps = m.totalSteps + (scens.map (fun sc => (sc.steps.getD []).length)).sum ∧
      m1.passedSteps + m1.failedSteps + m1.warningSteps
        = m.passedSteps + m.failedSteps + m.warningSteps
          + (scens.map (fun sc => (sc.steps.getD []).length)).sum ∧
      m1.stepDetails.length = m.stepDetails.length
          + (scens.map (fun sc => (sc.steps.getD []).length)).sum := by
  intro scens
  induction scens with
  | nil =>
    intro env tr m tr1 m1 vscens h
    simp only [runScenarios, Except.ok.injEq, Prod.mk.injEq] at h
    obtain ⟨-, h2, -⟩ := h
    subst h2
    simp
  | cons sc rest ih =>
    intro env tr m tr1 m1 vscens h
    rw [runScenarios] at h
    cases hn : sc.name with
    | none => rw [hn] at h; simp at h
    | some nm =>
      rw [hn] at h
      cases hs : sc.steps with
      | none => rw [hs] at h; simp at h
      | some steps =>
        rw [hs] at h
        simp only [] at h
        cases hr : runSteps env tr none m [] [] steps with
        | error e => rw [hr] at h; simp at h
        | ok val =>
          obtain ⟨tr2, cu2, m2, ms, vs⟩ := val
          rw [hr] at h
          simp only [] at h
          cases hrest : runScenarios env tr2 m2 rest with
          | error e => rw [hrest] at h; simp at h
          | ok val2 =>
            obtain ⟨tr3, m3, vrest⟩ := val2
            rw [hrest] at h
            simp only [Except.ok.injEq, Prod.mk.injEq] at h
            obtain ⟨-, hm, -⟩ := h
            subst hm
            have hstep := runSteps_ok_counts steps env tr none m [] [] tr2 cu2 m2 ms vs hr
            have hrec := ih env tr2 m2 tr3 m3 vrest hrest
            obtain ⟨a1, a2, a3⟩ := hstep
            obtain ⟨b1, b2, b3⟩ := hrec
            refine ⟨?_, ?_, ?_⟩ <;> simp [hs] <;> omega

/-- C3: for every list of scenarios processed by a completed validation pass,
the accumulated metrics satisfy
`totalSteps = passedSteps + failedSteps + warningSteps`, `totalSteps` equals
the total number of steps in the scenarios, and exactly one recorded outcome
exists per visited step. -/
theorem c3_validation_metrics_invariant (cfg : Config) (env : Env)
    (scens : List ScenarioDict) (url : String) (m : Metrics)
    (h : (validate_with_mcp cfg env scens url).1.metrics = some m) :
    m.totalSteps = m.passedSteps + m.failedSteps + m.warningSteps ∧
    m.totalSteps = (scens.map (fun sc => (sc.steps.getD []).length)).sum ∧
    m.totalSteps = m.stepDetails.length := by
  rw [validate_with_mcp] at h
  split at h
  · simp at h
  · split at h
    · simp at h
    · cases hl : env.launch with
      | error e => rw [hl] at h; simp at h
      | ok u =>
        rw [hl] at h
        simp only [] at h
        cases hr : runScenarios env [] initMetrics scens with
        | error e =>
          rw [hr] at h
          obtain ⟨e1, ms1, tr1⟩ := e
          simp at h
        | ok val =>
          obtain ⟨tr, m2, vscens⟩ := val
          rw [hr] at h
          simp only [Option.some.injEq] at h
          subst h
          have := runScenarios_ok_counts scens env [] initMetrics tr m2 vscens hr
          obtain ⟨a1, a2, a3⟩ := this
          simp [initMetrics] at a1 a2 a3
          omega

/-- Witness for C3 at a concrete completed validation run. -/
theorem c3_validation_metrics_invariant_witness :
    c3M.totalSteps = c3M.passedSteps + c3M.failedSteps + c3M.warningSteps ∧
    c3M.totalSteps = (c3Scens.map (fun sc => (sc.steps.getD []).length)).sum ∧
    c3M.totalSteps = c3M.stepDetails.length :=
  c3_validation_metrics_invariant plainCfg c3Env c3Scens "https://example.com" c3M (by decide)

/-- A completed step loop is characterised by its per-step outcome sequence:
the final state of the caller's step objects is the (possibly repaired) step
of each outcome, the recorded details are the outcomes' details in order, one
outcome exists per step, and `validated_steps` collects exactly the repaired
steps whose outcome was `passed`, in order. -/
lemma runSteps_ok_spec :
    ∀ (steps : List StepDict) (env : Env) (tr : List BAct) (cu : Option String)
      (m : Metrics) (macc vacc : List StepDict) (tr1 : List BAct) (cu1 : Option String)
      (m1 : Metrics) (ms vs : List StepDict),
      runSteps env tr cu m macc vacc steps = Except.ok (tr1, cu1, m1, ms, vs) →
      ms = macc ++ (stepOutcomes env tr cu steps).map Prod.fst ∧
      m1.stepDetails = m.stepDetails ++ (stepOutcomes env tr cu steps).map Prod.snd ∧
      (stepOutcomes env tr cu steps).length = steps.length ∧
      vs = vacc ++ ((stepOutcomes env tr cu steps).filter
        (fun p => p.2.status = Status.passed)).map Prod.fst := by
  intro steps
  induction steps with
  | nil =>
    intro env tr cu m macc vacc tr1 cu1 m1 ms vs h
    simp only [runSteps, Except.ok.injEq, Prod.mk.injEq] at h
    obtain ⟨-, -, h3, h4, h5⟩ := h
    subst h3; subst h4; subst h5
    simp [stepOutcomes]
  | cons s rest ih =>
    intro env tr cu m macc vacc tr1 cu1 m1 ms vs h
    rw [runSteps] at h
    cases hv : validateStep env tr cu s with
    | error e => rw [hv] at h; simp at h
    | ok val =>
      obtain ⟨tr2, cu2, s2, d⟩ := val
      rw [hv] at h
      simp only [] at h
      have hrec := ih env tr2 cu2 (addDetail { m with totalSteps := m.totalSteps + 1 } d)
        (macc ++ [s2]) (if d.status = Status.passed then vacc ++ [s2] else vacc)
        tr1 cu1 m1 ms vs h
      obtain ⟨r1, r2, r3, r4⟩ := hrec
      have hdet := addDetail_stepDetails { m with totalSteps := m.totalSteps + 1 } d
      simp only [stepOutcomes, hv]
      refine ⟨?_, ?_, ?_, ?_⟩
      · rw [r1]; simp
      · rw [r2, hdet]; simp
      · simp [r3]
      · rw [r4]
        by_cases hp : d.status = Status.passed
        · simp [hp, List.filter_cons]
        · simp [hp, List.filter_cons]

/-- C9: when the validation pass completes a scenario's step loop, the
`validated_steps` list from which the validated scenario is built contains
exactly the (possibly selector-repaired) steps whose recorded outcome was
`passed`, in their original relative order; `failed` and `warning` steps are
omitted, while the caller's step objects and the recorded details list both
keep one entry per visited step. -/
theorem c9_validated_scenario_keeps_passed_steps (env : Env) (tr : List BAct)
    (m : Metrics) (steps : List StepDict) (tr1 : List BAct) (cu1 : Option String)
    (m1 : Metrics) (ms vs : List StepDict)
    (h : runSteps env tr none m [] [] steps = Except.ok (tr1, cu1, m1, ms, vs)) :
    ms = (stepOutcomes env tr none steps).map Prod.fst ∧
    m1.stepDetails = m.stepDetails ++ (stepOutcomes env tr none steps).map Prod.snd ∧
    (stepOutcomes env tr none steps).length = steps.length ∧
    vs = ((stepOutcomes env tr none steps).filter
      (fun p => p.2.status = Status.passed)).map Prod.fst := by
  have := runSteps_ok_spec steps env tr none m [] [] tr1 cu1 m1 ms vs h
  simpa using this

/-- Witness for C9 at a concrete run with one passed and one failed step. -/
theorem c9_validated_scenario_keeps_passed_steps_witness :
    [gotoStep, clickStep] = (stepOutcomes c9Env [] none c9Steps).map Prod.fst ∧
    c9M.stepDetails = initMetrics.stepDetails
      ++ (stepOutcomes c9Env [] none c9Steps).map Prod.snd ∧
    (stepOutcomes c9Env [] none c9Steps).length = c9Steps.length ∧
    [gotoStep] = ((stepOutcomes c9Env [] none c9Steps).filter
      (fun p => p.2.status = Status.passed)).map Prod.fst :=
  c9_validated_scenario_keeps_passed_steps c9Env [] initMetrics c9Steps
    c9Trace (some "https://example.com") c9M [gotoStep, clickStep] [gotoStep] (by decide)

/-- Replacing a step's selector by the value it already has is the identity. -/
lemma step_selector_eta (step : StepDict) (sel : String) (hsel : step.selector = some sel) :
    { step with selector := some sel } = step := by
  obtain ⟨a0, u0, s0, v0, c0⟩ := step
  simp only [] at hsel
  rw [← hsel]

/-- C1 (counterexample to the claim as stated): during a validation pass over
a scenario whose click step has a visible selector, the real click IS
performed - the browser-interaction trace of the pass contains the click. -/
theorem c1_counterexample :
    (validate_with_mcp plainCfg c1Env [c1Scen] "https://example.com").1.validated = true ∧
    (validate_with_mcp plainCfg c1Env [c1Scen] "https://example.com").2
      = [BAct.goto "https://example.com", BAct.is_visible "#btn", BAct.click "#btn"] ∧
    BAct.click "#btn" ∈ (validate_with_mcp plainCfg c1Env [c1Scen] "https://example.com").2 := by
  refine ⟨by decide, by decide, by decide⟩

/-- C1 (amended): during validation, a Fill or Click step whose page is
loaded and whose selector's first match is visible does perform the real
browser action - the trace gains the click (resp. the fill with the step's
value), whatever the action's outcome; only the selector pre-flight check
precedes it. -/
theorem c1_amended_validation_performs_actions (env : Env) (tr : List BAct)
    (cu : Option String) (step : StepDict) (sel : String)
    (hcu : pyFalsy cu = false) (hsel : step.selector = some sel)
    (hvis : env.is_visible tr.length sel = Except.ok true) :
    (step.action = some "click" → ∃ d, validateStep env tr cu step
      = Except.ok (tr ++ [BAct.is_visible sel, BAct.click sel], cu, step, d)) ∧
    (step.action = some "fill" → ∃ d, validateStep env tr cu step
      = Except.ok (tr ++ [BAct.is_visible sel, BAct.fill sel (step.value.getD "")],
          cu, step, d)) := by
  have hres : resolveSelector env tr sel = (tr ++ [BAct.is_visible sel],
      ResolveOutcome.found sel) := by
    rw [resolveSelector, hvis]
  have heta := step_selector_eta step sel hsel
  constructor
  · intro ha
    have heta2 := heta
    rw [ha] at heta2
    rw [validateStep, ha]
    cases hc : env.click (tr.length + 1) sel with
    | ok u => exact ⟨⟨"click", Status.passed, none⟩, by simp [hcu, hsel, hres, hc, heta2]⟩
    | error e => exact ⟨⟨"click", Status.failed, some e⟩, by simp [hcu, hsel, hres, hc, heta2]⟩
  · intro ha
    have heta2 := heta
    rw [ha] at heta2
    rw [validateStep, ha]
    cases hf : env.fill (tr.length + 1) sel (step.value.getD "") with
    | ok u => exact ⟨⟨"fill", Status.passed, none⟩, by simp [hcu, hsel, hres, hf, heta2]⟩
    | error e => exact ⟨⟨"fill", Status.failed, some e⟩, by simp [hcu, hsel, hres, hf, heta2]⟩

/-- Witness for the amended C1 at a concrete visible click selector. -/
theorem c1_amended_validation_performs_actions_witness :
    (clickStep.action = some "click" → ∃ d, validateStep c1Env [] (some "https://example.com")
      clickStep = Except.ok ([] ++ [BAct.is_visible "#btn", BAct.click "#btn"],
        some "https://example.com", clickStep, d)) ∧
    (clickStep.action = some "fill" → ∃ d, validateStep c1Env [] (some "https://example.com")
      clickStep = Except.ok ([] ++ [BAct.is_visible "#btn",
        BAct.fill "#btn" (clickStep.value.getD "")], some "https://example.com", clickStep, d)) :=
  c1_amended_validation_performs_actions c1Env [] (some "https://example.com") clickStep "#btn"
    (by decide) (by decide) (by decide)

/-- C5: a failed Goto leaves `current_url` exactly as it was (the session
never advances out of no-page-loaded on navigation failure), and while no
page has been loaded every interactive step (fill, click or expect) yields a
`warning` outcome with reason "No page loaded" - not `failed` - and still
bumps `totalSteps` when visited by the step loop. -/
theorem c5_goto_failure_and_no_page_warnings (env : Env) (tr : List BAct)
    (cu : Option String) (step step2 : StepDict) (u e a : String) (m : Metrics)
    (macc vacc rest : List StepDict)
    (hg : step.action = some "goto") (hu : step.url = some u)
    (he : env.goto tr.length u = Except.error e)
    (ha : step2.action = some a) (hmem : a = "fill" ∨ a = "click" ∨ a = "expect") :
    validateStep env tr cu step
      = Except.ok (tr ++ [BAct.goto u], cu, step, ⟨"goto", Status.failed, some e⟩) ∧
    validateStep env tr none step2
      = Except.ok (tr, none, step2, ⟨a, Status.warning, some "No page loaded"⟩) ∧
    runSteps env tr none m macc vacc (step2 :: rest)
      = runSteps env tr none (addDetail { m with totalSteps := m.totalSteps + 1 }
          ⟨a, Status.warning, some "No page loaded"⟩) (macc ++ [step2]) vacc rest := by
  have hng : a ≠ "goto" := by
    rcases hmem with h | h | h <;> subst h <;> decide
  have hwarn : validateStep env tr none step2
      = Except.ok (tr, none, step2, ⟨a, Status.warning, some "No page loaded"⟩) := by
    rw [validateStep, ha]
    simp [hng, pyFalsy]
  refine ⟨?_, hwarn, ?_⟩
  · rw [validateStep, hg]
    simp [hu, he]
  · rw [runSteps, hwarn]
    simp

/-- Witness for C5 at a concrete failing navigation followed by a fill. -/
theorem c5_goto_failure_and_no_page_warnings_witness :
    validateStep c5Env [] none gotoStep
      = Except.ok ([] ++ [BAct.goto "https://example.com"], none, gotoStep,
          ⟨"goto", Status.failed, some "net::ERR_NAME_NOT_RESOLVED"⟩) ∧
    validateStep c5Env [] none fillStep
      = Except.ok ([], none, fillStep, ⟨"fill", Status.warning, some "No page loaded"⟩) ∧
    runSteps c5Env [] none initMetrics [] [] [fillStep]
      = runSteps c5Env [] none (addDetail { initMetrics with
          totalSteps := initMetrics.totalSteps + 1 }
          ⟨"fill", Status.warning, some "No page loaded"⟩) ([] ++ [fillStep]) [] [] :=
  c5_goto_failure_and_no_page_warnings c5Env [] none gotoStep fillStep
    "https://example.com" "net::ERR_NAME_NOT_RESOLVED" "fill" initMetrics [] [] []
    (by decide) (by decide) (by decide) (by decide) (Or.inl rfl)

/-- C7: resolving a selector whose first match is already visible is
idempotent - the Selector Resolver returns it unchanged after the single
visibility query, probing no alternative template, and the validated step
keeps its selector field unmodified. -/
theorem c7_selector_repair_idempotent (env : Env) (tr : List BAct) (sel : String)
    (step : StepDict) (cu : Option String)
    (hvis : env.is_visible tr.length sel = Except.ok true)
    (hsel : step.selector = some sel) (hact : step.action = some "fill")
    (hcu : pyFalsy cu = false)
    (hfill : env.fill (tr.length + 1) sel (step.value.getD "") = Except.ok ()) :
    resolveSelector env tr sel = (tr ++ [BAct.is_visible sel], ResolveOutcome.found sel) ∧
    validateStep env tr cu step
      = Except.ok (tr ++ [BAct.is_visible sel, BAct.fill sel (step.value.getD "")],
          cu, step, ⟨"fill", Status.passed, none⟩) := by
  have hres : resolveSelector env tr sel = (tr ++ [BAct.is_visible sel],
      ResolveOutcome.found sel) := by
    rw [resolveSelector, hvis]
  have heta := step_selector_eta step sel hsel
  rw [hact] at heta
  refine ⟨hres, ?_⟩
  rw [validateStep, hact]
  have hlen : (tr ++ [BAct.is_visible sel]).length = tr.length + 1 := by simp
  simp [hcu, hsel, hres, hlen, hfill, heta]

/-- Witness for C7 at a concrete visible fill selector. -/
theorem c7_selector_repair_idempotent_witness :
    resolveSelector c7Env [] "#q" = ([] ++ [BAct.is_visible "#q"], ResolveOutcome.found "#q") ∧
    validateStep c7Env [] (some "https://example.com") fillStep
      = Except.ok ([] ++ [BAct.is_visible "#q", BAct.fill "#q" (fillStep.value.getD "")],
          some "https://example.com", fillStep, ⟨"fill", Status.passed, none⟩) :=
  c7_selector_repair_idempotent c7Env [] "#q" fillStep (some "https://example.com")
    (by decide) (by decide) (by decide) (by decide) (by decide)

/-- C8: an Expect step whose condition is any value other than `toBeVisible`
performs no browser interaction at all (the trace is unchanged) and is
recorded as a no-op pass, both in the validation pass (with a page loaded)
and in the execution pass. -/
theorem c8_unknown_expect_condition_noop_pass (envV : Env) (envE : ExecEnv)
    (tr trE : List BAct) (cu : Option String) (step : StepDict) (c : String)
    (hcu : pyFalsy cu = false) (ha : step.action = some "expect")
    (hc : step.condition = some c) (hne : c ≠ "toBeVisible") :
    validateStep envV tr cu step
      = Except.ok (tr, cu, step, ⟨"expect", Status.passed, none⟩) ∧
    execStep envE trE step = (trE, "", true) := by
  constructor
  · rw [validateStep, ha]
    simp [hcu, hc, hne]
  · rw [execStep, ha]
    simp [hc, hne]

/-- Witness for C8 at a concrete unsupported expect condition. -/
theorem c8_unknown_expect_condition_noop_pass_witness :
    validateStep c8EnvV [] (some "https://example.com") expectOtherStep
      = Except.ok ([], some "https://example.com", expectOtherStep,
          ⟨"expect", Status.passed, none⟩) ∧
    execStep c8EnvE [BAct.screenshot, BAct.trace_start] expectOtherStep
      = ([BAct.screenshot, BAct.trace_start], "", true) :=
  c8_unknown_expect_condition_noop_pass c8EnvV c8EnvE [] [BAct.screenshot, BAct.trace_start]
    (some "https://example.com") expectOtherStep "toHaveText"
    (by decide) (by decide) (by decide) (by decide)

/-- C10: during validation, a step whose action is none of goto / fill /
click / expect, reached with a page loaded, performs no browser interaction,
is recorded as `passed`, and is appended to the scenario's validated steps. -/
theorem c10_unrecognized_action_silently_passes (env : Env) (tr : List BAct)
    (cu : Option String) (step : StepDict) (a : String) (m : Metrics)
    (macc vacc rest : List StepDict)
    (hcu : pyFalsy cu = false) (ha : step.action = some a)
    (h1 : a ≠ "goto") (h2 : a ≠ "click") (h3 : a ≠ "fill") (h4 : a ≠ "expect") :
    validateStep env tr cu step = Except.ok (tr, cu, step, ⟨a, Status.passed, none⟩) ∧
    runSteps env tr cu m macc vacc (step :: rest)
      = runSteps env tr cu (addDetail { m with totalSteps := m.totalSteps + 1 }
          ⟨a, Status.passed, none⟩) (macc ++ [step]) (vacc ++ [step]) rest := by
  have hstep : validateStep env tr cu step
      = Except.ok (tr, cu, step, ⟨a, Status.passed, none⟩) := by
    rw [validateStep, ha]
    simp [h1, h2, h3, h4, hcu]
  refine ⟨hstep, ?_⟩
  rw [runSteps, hstep]
  simp

/-- Witness for C10 at a concrete `hover` step. -/
theorem c10_unrecognized_action_silently_passes_witness :
    validateStep c10Env [] (some "https://example.com") hoverStep
      = Except.ok ([], some "https://example.com", hoverStep,
          ⟨"hover", Status.passed, none⟩) ∧
    runSteps c10Env [] (some "https://example.com") initMetrics [] [] [hoverStep]
      = runSteps c10Env [] (some "https://example.com")
          (addDetail { initMetrics with totalSteps := initMetrics.totalSteps + 1 }
            ⟨"hover", Status.passed, none⟩) ([] ++ [hoverStep]) ([] ++ [hoverStep]) [] :=
  c10_unrecognized_action_silently_passes c10Env [] (some "https://example.com") hoverStep
    "hover" initMetrics [] [] [] (by decide) (by decide)
    (by decide) (by decide) (by decide) (by decide)

/-- The `final_result` flag computed by the execution step loop equals the
conjunction of the starting flag with every per-step success flag. -/
lemma execSteps_final :
    ∀ (steps : List StepDict) (env : ExecEnv) (tr : List BAct) (code : String) (fr : Bool),
      (execSteps env tr code fr steps).2.2
        = (fr && (execFlags env tr steps).all (fun b => b)) := by
  intro steps
  induction steps with
  | nil => intro env tr code fr; simp [execSteps, execFlags]
  | cons s rest ih =>
    intro env tr code fr
    rw [execSteps, execFlags]
    rcases hstep : execStep env tr s with ⟨tr1, c, ok⟩
    simp only [List.all_cons, ← Bool.and_assoc]
    exact ih env tr1 (code ++ c) (fr && ok)

/-- The execution pass records one success flag per scenario step: a failed
step never aborts the iteration. -/
lemma execFlags_length :
    ∀ (steps : List StepDict) (env : ExecEnv) (tr : List BAct),
      (execFlags env tr steps).length = steps.length := by
  intro steps
  induction steps with
  | nil => intro env tr; simp [execFlags]
  | cons s rest ih =>
    intro env tr
    rw [execFlags]
    rcases hstep : execStep env tr s with ⟨tr1, c, ok⟩
    simp [ih]

/-- A list of booleans contains `false` exactly when it does not hold
everywhere. -/
lemma mem_false_iff_not_all (l : List Bool) :
    (false ∈ l) ↔ ¬ (l.all (fun b => b) = true) := by
  induction l with
  | nil => simp
  | cons b t ih =>
    cases b
    · constructor
      · intro _
        simp [List.all_cons]
      · intro _
        exact List.mem_cons_self false t
    · constructor
      · intro hm
        have hmem : false ∈ t := by
          rcases List.mem_cons.mp hm with h | h
          · exact absurd h (by decide)
          · exact h
        intro hall
        rw [List.all_cons] at hall
        exact (ih.mp hmem) (by simpa using hall)
      · intro hna
        have hnt : ¬ (t.all (fun b => b) = true) := by
          intro hta
          exact hna (by simp [List.all_cons, hta])
        exact List.mem_cons_of_mem _ (ih.mpr hnt)

/-- C2 (counterexample to the claim as stated): a run of the execution pass in
which a step fails (`final_result = false`, report status `failed`) still
returns `success = true`; the returned `success` field is not false when a
step outcome is failed. -/
theorem c2_counterexample :
    (execute_scenario_with_playwright c2Env c2Scen).1.success = true ∧
    (execute_scenario_with_playwright c2Env c2Scen).1.final_result = some false ∧
    (execute_scenario_with_playwright c2Env c2Scen).1.status = some "failed" := by
  refine ⟨by decide, by decide, by decide⟩

/-- C2 (amended): when the execution pass completes without a pass-level
exception, the returned `success` field is true regardless of step outcomes;
it is the pass's `final_result` (and the report status `failed` vs
`completed`) that is false exactly when at least one step's outcome is
failed, and a failed step does not abort iteration - one success flag is
recorded per step. -/
theorem c2_amended_success_vs_step_failures (env : ExecEnv) (sc : ScenarioDict)
    (nm : String) (steps : List StepDict)
    (hn : sc.name = some nm) (hst : sc.steps = some steps)
    (hl : env.launch = Except.ok ()) (hs1 : env.screenshot1 = Except.ok ())
    (hts : env.tracing_start = Except.ok ()) (hstop : env.tracing_stop = Except.ok ())
    (hs2 : env.screenshot2 = Except.ok ()) (hw1 : env.write_result_txt = Except.ok ())
    (hw2 : env.write_report_json = Except.ok ()) :
    (execute_scenario_with_playwright env sc).1.success = true ∧
    (execute_scenario_with_playwright env sc).1.final_result
      = some ((execFlags env [BAct.screenshot, BAct.trace_start] steps).all (fun b => b)) ∧
    ((execute_scenario_with_playwright env sc).1.status = some "failed"
      ↔ false ∈ execFlags env [BAct.screenshot, BAct.trace_start] steps) ∧
    (execFlags env [BAct.screenshot, BAct.trace_start] steps).length = steps.length := by
  rcases hE : execSteps env [BAct.screenshot, BAct.trace_start] "" true steps
    with ⟨tr, code, fr⟩
  have hfr : fr = (execFlags env [BAct.screenshot, BAct.trace_start] steps).all
      (fun b => b) := by
    have := execSteps_final steps env [BAct.screenshot, BAct.trace_start] "" true
    rw [hE] at this
    simpa using this
  have hres : execute_scenario_with_playwright env sc
      = ({ success := true, error := none,
           status := some (if fr then "completed" else "failed"),
           totalSteps := some steps.length,
           executedCode := some code,
           final_result := some fr,
           pageState := some (match env.page_title with
             | Except.ok t => PageState.ok env.page_url t
             | Except.error e => PageState.err e) },
         tr ++ [BAct.trace_stop, BAct.screenshot]) := by
    simp only [execute_scenario_with_playwright, hn, hl, hs1, hts, hst, hE, hstop, hs2,
      hw1, hw2]
  rw [hres]
  refine ⟨rfl, by simp [hfr], ?_, execFlags_length steps env _⟩
  rw [mem_false_iff_not_all]
  cases hall : (execFlags env [BAct.screenshot, BAct.trace_start] steps).all (fun b => b) with
  | false => simp [hfr, hall]
  | true => simp [hfr, hall]

/-- Witness for the amended C2 at a concrete run with one failed click. -/
theorem c2_amended_success_vs_step_failures_witness :
    (execute_scenario_with_playwright c2Env c2Scen).1.success = true ∧
    (execute_scenario_with_playwright c2Env c2Scen).1.final_result
      = some ((execFlags c2Env [BAct.screenshot, BAct.trace_start]
          [gotoStep, clickStep]).all (fun b => b)) ∧
    ((execute_scenario_with_playwright c2Env c2Scen).1.status = some "failed"
      ↔ false ∈ execFlags c2Env [BAct.screenshot, BAct.trace_start] [gotoStep, clickStep]) ∧
    (execFlags c2Env [BAct.screenshot, BAct.trace_start] [gotoStep, clickStep]).length
      = [gotoStep, clickStep].length :=
  c2_amended_success_vs_step_failures c2Env c2Scen "S" [gotoStep, clickStep]
    (by decide) (by decide) (by decide) (by decide) (by decide) (by decide)
    (by decide) (by decide) (by decide)

/-- Agreement-except-selector is reflexive. -/
lemma stepAgrees_refl (s : StepDict) : stepAgrees s s := ⟨rfl, rfl, rfl, rfl⟩

/-- Pointwise agreement-except-selector is reflexive on step lists. -/
lemma forall2_stepAgrees_refl (l : List StepDict) : List.Forall₂ stepAgrees l l :=
  List.forall₂_same.mpr (fun s _ => stepAgrees_refl s)

/-- Scenario agreement-except-selectors is reflexive. -/
lemma scenarioAgrees_refl (sc : ScenarioDict) : scenarioAgrees sc sc := by
  refine ⟨rfl, rfl, ?_⟩
  cases hs : sc.steps with
  | none => exact Or.inl ⟨rfl, rfl⟩
  | some l => exact Or.inr ⟨l, l, rfl, rfl, forall2_stepAgrees_refl l⟩

/-- Pointwise scenario agreement is reflexive on scenario lists. -/
lemma forall2_scenarioAgrees_refl (l : List ScenarioDict) :
    List.Forall₂ scenarioAgrees l l :=
  List.forall₂_same.mpr (fun sc _ => scenarioAgrees_refl sc)

/-- A validated step differs from the incoming step at most in its `selector`
field: selector substitution is the only in-place mutation of the pass. -/
lemma validateStep_ok_agrees (env : Env) (tr : List BAct) (cu : Option String)
    (s : StepDict) (tr1 : List BAct) (cu1 : Option String) (s1 : StepDict)
    (d : StepDetail) (h : validateStep env tr cu s = Except.ok (tr1, cu1, s1, d)) :
    stepAgrees s s1 := by
  rw [validateStep] at h
  repeat' split at h
  all_goals simp_all [stepAgrees]
  all_goals obtain ⟨-, -, h3x, -⟩ := h
  all_goals subst h3x
  all_goals simp

/-- On a pass-level exception, the step loop hands back the accumulated
(possibly repaired) prefix followed by steps that agree with the input except
in selectors. -/
lemma runSteps_error_agrees :
    ∀ (steps : List StepDict) (env : Env) (tr : List BAct) (cu : Option String)
      (m : Metrics) (macc vacc : List StepDict) (e : String) (ms : List StepDict)
      (trE : List BAct),
      runSteps env tr cu m macc vacc steps = Except.error (e, ms, trE) →
      ∃ nm, ms = macc ++ nm ∧ List.Forall₂ stepAgrees steps nm := by
  intro steps
  induction steps with
  | nil =>
    intro env tr cu m macc vacc e ms trE h
    simp [runSteps] at h
  | cons s rest ih =>
    intro env tr cu m macc vacc e ms trE h
    rw [runSteps] at h
    cases hv : validateStep env tr cu s with
    | error e2 =>
      rw [hv] at h
      simp only [Except.error.injEq, Prod.mk.injEq] at h
      obtain ⟨-, h2, -⟩ := h
      exact ⟨s :: rest, h2.symm, List.Forall₂.cons (stepAgrees_refl s)
        (forall2_stepAgrees_refl rest)⟩
    | ok val =>
      obtain ⟨tr2, cu2, s2, d⟩ := val
      rw [hv] at h
      simp only [] at h
      obtain ⟨nm2, hms, hf⟩ := ih env tr2 cu2 _ (macc ++ [s2]) _ e ms trE h
      refine ⟨s2 :: nm2, ?_, List.Forall₂.cons
        (validateStep_ok_agrees env tr cu s tr2 cu2 s2 d hv) hf⟩
      rw [hms]
      simp

/-- On completion, the final state of the caller's step objects agrees with
the input steps except possibly in selectors. -/
lemma runSteps_ok_agrees :
    ∀ (steps : List StepDict) (env : Env) (tr : List BAct) (cu : Option String)
      (m : Metrics) (macc vacc : List StepDict) (tr1 : List BAct) (cu1 : Option String)
      (m1 : Metrics) (ms vs : List StepDict),
      runSteps env tr cu m macc vacc steps = Except.ok (tr1, cu1, m1, ms, vs) →
      ∃ nm, ms = macc ++ nm ∧ List.Forall₂ stepAgrees steps nm := by
  intro steps
  induction steps with
  | nil =>
    intro env tr cu m macc vacc tr1 cu1 m1 ms vs h
    simp only [runSteps, Except.ok.injEq, Prod.mk.injEq] at h
    obtain ⟨-, -, -, h4, -⟩ := h
    exact ⟨[], by rw [← h4]; simp, List.Forall₂.nil⟩
  | cons s rest ih =>
    intro env tr cu m macc vacc tr1 cu1 m1 ms vs h
    rw [runSteps] at h
    cases hv : validateStep env tr cu s with
    | error e2 => rw [hv] at h; simp at h
    | ok val =>
      obtain ⟨tr2, cu2, s2, d⟩ := val
      rw [hv] at h
      simp only [] at h
      obtain ⟨nm2, hms, hf⟩ := ih env tr2 cu2 _ (macc ++ [s2]) _ tr1 cu1 m1 ms vs h
      refine ⟨s2 :: nm2, ?_, List.Forall₂.cons
        (validateStep_ok_agrees env tr cu s tr2 cu2 s2 d hv) hf⟩
      rw [hms]
      simp

/-- On a pass-level exception, the scenario loop hands back scenario dicts
that agree with the input scenarios except possibly in step selectors. -/
lemma runScenarios_error_agrees :
    ∀ (scens : List ScenarioDict) (env : Env) (tr : List BAct) (m : Metrics)
      (e : String) (ms : List ScenarioDict) (trE : List BAct),
      runScenarios env tr m scens = Except.error (e, ms, trE) →
      List.Forall₂ scenarioAgrees scens ms := by
  intro scens
  induction scens with
  | nil =>
    intro env tr m e ms trE h
    simp [runScenarios] at h
  | cons sc rest ih =>
    intro env tr m e ms trE h
    rw [runScenarios] at h
    cases hn : sc.name with
    | none =>
      rw [hn] at h
      simp only [Except.error.injEq, Prod.mk.injEq] at h
      obtain ⟨-, h2, -⟩ := h
      rw [← h2]
      exact forall2_scenarioAgrees_refl (sc :: rest)
    | some nm =>
      rw [hn] at h
      cases hs : sc.steps with
      | none =>
        rw [hs] at h
        simp only [Except.error.injEq, Prod.mk.injEq] at h
        obtain ⟨-, h2, -⟩ := h
        rw [← h2]
        exact forall2_scenarioAgrees_refl (sc :: rest)
      | some steps =>
        rw [hs] at h
        simp only [] at h
        cases hr : runSteps env tr none m [] [] steps with
        | error err2 =>
          obtain ⟨e2, msteps, trE2⟩ := err2
          rw [hr] at h
          simp only [Except.error.injEq, Prod.mk.injEq] at h
          obtain ⟨-, h2, -⟩ := h
          rw [← h2]
          obtain ⟨nm2, hms, hf⟩ := runSteps_error_agrees steps env tr none m [] []
            e2 msteps trE2 hr
          simp only [List.nil_append] at hms
          subst hms
          exact List.Forall₂.cons ⟨hn, rfl, Or.inr ⟨steps, msteps, hs, rfl, hf⟩⟩
            (forall2_scenarioAgrees_refl rest)
        | ok val =>
          obtain ⟨tr2, cu2, m2, msteps, vsteps⟩ := val
          rw [hr] at h
          simp only [] at h
          cases hrest : runScenarios env tr2 m2 rest with
          | error err3 =>
            obtain ⟨e3, sufs, trE3⟩ := err3
            rw [hrest] at h
            simp only [Except.error.injEq, Prod.mk.injEq] at h
            obtain ⟨-, h2, -⟩ := h
            rw [← h2]
            obtain ⟨nm2, hms, hf⟩ := runSteps_ok_agrees steps env tr none m [] []
              tr2 cu2 m2 msteps vsteps hr
            simp only [List.nil_append] at hms
            subst hms
            exact List.Forall₂.cons ⟨hn, rfl, Or.inr ⟨steps, msteps, hs, rfl, hf⟩⟩
              (ih env tr2 m2 e3 sufs trE3 hrest)
          | ok val2 =>
            obtain ⟨tr3, m3, vrest⟩ := val2
            rw [hrest] at h
            simp at h

/-- C4 (counterexample to the claim as stated): a validation pass that repairs
a fill step's selector in place and then hits a pass-level exception returns
`validated = false` with scenarios that are NOT the originals - the repaired
(substituted) selector is visible in the returned scenarios. -/
theorem c4_counterexample :
    (validate_with_mcp plainCfg c4Env c4Scens "https://example.com").1.validated = false ∧
    (validate_with_mcp plainCfg c4Env c4Scens "https://example.com").1.scenarios ≠ c4Scens ∧
    ((validate_with_mcp plainCfg c4Env c4Scens "https://example.com").1.scenarios.map
      (fun sc => (sc.steps.getD []).map (fun s => s.selector)))
      = [[none, some "[data-testid=\"#q\"]", none]] := by
  refine ⟨by decide, by decide, by decide⟩

/-- C4 (amended): on any `validated = false` outcome the pass returns a reason
message together with a scenarios list that agrees with the input scenario
list in everything except possibly step `selector` fields - selector
substitutions already made in place before a pass-level exception are
reflected in the returned scenarios rather than rolled back. -/
theorem c4_amended_error_returns_aliased_scenarios (cfg : Config) (env : Env)
    (scens : List ScenarioDict) (url : String)
    (h : (validate_with_mcp cfg env scens url).1.validated = false) :
    ((validate_with_mcp cfg env scens url).1.reason).isSome = true ∧
    List.Forall₂ scenarioAgrees scens (validate_with_mcp cfg env scens url).1.scenarios := by
  by_cases h1 : cfg.enable_mcp_validation = false
  · constructor
    · simp [validate_with_mcp, h1]
    · simp only [validate_with_mcp, if_pos h1]
      exact forall2_scenarioAgrees_refl scens
  · by_cases h2 : url ≠ "" ∧ should_skip_mcp_validation cfg url = true
    · constructor
      · simp [validate_with_mcp, h1, h2]
      · simp only [validate_with_mcp, if_neg h1, if_pos h2]
        exact forall2_scenarioAgrees_refl scens
    · cases hl : env.launch with
      | error e =>
        constructor
        · simp [validate_with_mcp, h1, h2, hl]
        · simp only [validate_with_mcp, if_neg h1, if_neg h2, hl]
          exact forall2_scenarioAgrees_refl scens
      | ok uu =>
        cases hr : runScenarios env [] initMetrics scens with
        | error err =>
          obtain ⟨e3, ms3, tr3⟩ := err
          constructor
          · simp [validate_with_mcp, h1, h2, hl, hr]
          · simp only [validate_with_mcp, if_neg h1, if_neg h2, hl, hr]
            exact runScenarios_error_agrees scens env [] initMetrics e3 ms3 tr3 hr
        | ok val =>
          obtain ⟨tr3, m3, vs3⟩ := val
          exfalso
          rw [validate_with_mcp] at h
          simp [h1, h2, hl, hr] at h

/-- Witness for the amended C4 at a concrete mid-pass exception after an
in-place selector repair. -/
theorem c4_amended_error_returns_aliased_scenarios_witness :
    ((validate_with_mcp plainCfg c4Env c4Scens "https://example.com").1.reason).isSome = true ∧
    List.Forall₂ scenarioAgrees c4Scens
      (validate_with_mcp plainCfg c4Env c4Scens "https://example.com").1.scenarios :=
  c4_amended_error_returns_aliased_scenarios plainCfg c4Env c4Scens "https://example.com"
    (by decide)

/-- C6 (counterexample to the claim as stated): skip-list matching is not
case-insensitive in the configured domain - with the configured entry `BANK`,
the domain does occur in `https://MyBank.com/login` ignoring case, yet
validation is not skipped. -/
theorem c6_counterexample :
    strContainsSub (pyLower "https://MyBank.com/login") (pyLower "BANK") = true ∧
    should_skip_mcp_validation c6CfgUpper "https://MyBank.com/login" = false := by
  refine ⟨by decide, by decide⟩

/-- C6 (amended): skip-list matching tests each configured domain entry, as
configured, for substring occurrence in the lowercased target URL; hence for
a configured entry that is itself lower-case the match is case-insensitive in
the URL, and in particular `bank` skips `https://MyBank.com/login`. -/
theorem c6_amended_lowercase_domain_matches (cfg : Config) (url d : String)
    (hmem : d ∈ cfg.skip_mcp_domains) (hne : d ≠ "") (hurl : url ≠ "")
    (hlower : pyLower d = d)
    (hocc : strContainsSub (pyLower url) (pyLower d) = true) :
    should_skip_mcp_validation cfg url = true := by
  rw [hlower] at hocc
  rw [should_skip_mcp_validation, if_neg hurl]
  rw [List.any_eq_true]
  exact ⟨d, hmem, by simp [hne, hocc]⟩

/-- Witness for the amended C6: the configured entry `bank` skips validation
for `https://MyBank.com/login`. -/
theorem c6_amended_lowercase_domain_matches_witness :
    should_skip_mcp_validation c6CfgLower "https://MyBank.com/login" = true :=
  c6_amended_lowercase_domain_matches c6CfgLower "https://MyBank.com/login" "bank"
    (by decide) (by decide) (by decide) (by decide) (by decide)

end Taas
